import Mathlib

/- Verification development for the js_parse lexical scanner.
   The Rust source is embedded shallowly: the combine parser combinators are
   modelled as functions from character lists to a Parsec-style result that
   records whether input was consumed (combine's choice only tries the next
   alternative when the previous one failed without consuming; `try` converts
   a consuming failure into a non-consuming one).  Byte offsets are modelled
   as character offsets; every input considered in this file is ASCII, where
   the two coincide. -/

namespace JsParse

/-- Result of running a parser: success or failure, each recording whether
input was consumed (the combine crate's committed-choice semantics). -/
inductive PRes (α : Type) where
  | ok (consumed : Bool) (val : α) (rest : List Char)
  | err (consumed : Bool)
deriving DecidableEq

/-- A parser over a character stream. -/
abbrev P (α : Type) : Type := List Char → PRes α

/-- Runs a parser the way combine's easy_parse / parse do: on success the
value and the remaining input are returned, all failures collapse to none. -/
def runP (p : P α) (input : List Char) : Option (α × List Char) :=
  match p input with
  | .ok _ v rest => some (v, rest)
  | .err _ => none

/-- Maps a function over a parser result (combine's .map). -/
def pmap (f : α → β) (p : P α) : P β := fun input =>
  match p input with
  | .ok c v r => .ok c (f v) r
  | .err c => .err c

/-- Sequences two parsers (combine's tuple / .and). -/
def pseq (p : P α) (q : P β) : P (α × β) := fun input =>
  match p input with
  | .err c => .err c
  | .ok c v r =>
    match q r with
    | .err c2 => .err (c || c2)
    | .ok c2 w r2 => .ok (c || c2) (v, w) r2

/-- Keeps the left result of a sequence (combine's .skip). -/
def pleft (p : P α) (q : P β) : P α := pmap Prod.fst (pseq p q)

/-- Converts a failure into a non-consuming failure (combine's try). -/
def ptry (p : P α) : P α := fun input =>
  match p input with
  | .err _ => .err false
  | r => r

/-- Ordered alternative: the second parser runs only when the first failed
without consuming input (combine's or / choice step). -/
def porelse (p q : P α) : P α := fun input =>
  match p input with
  | .err false => q input
  | r => r

/-- A parser that always fails without consuming. -/
def pfail : P α := fun _ => .err false

/-- Ordered choice over a list of parsers (combine's choice). -/
def pchoice (ps : List (P α)) : P α := ps.foldr porelse pfail

/-- Consumes one character satisfying the predicate (combine's satisfy). -/
def psatisfy (pred : Char → Bool) : P Char := fun input =>
  match input with
  | [] => .err false
  | c :: rest => if pred c then .ok true c rest else .err false

/-- Consumes one given character (combine's char). -/
def pchar (c : Char) : P Char := psatisfy (fun x => x == c)

/-- Consumes one character not in the list (combine's none_of). -/
def pnoneOf (cs : List Char) : P Char := psatisfy (fun x => !(cs.contains x))

/-- Helper for pstring: matches the target character by character, failing
with the consumed flag set as soon as at least one character matched. -/
def pstringGo (target input : List Char) (consumed : Bool) : PRes Unit :=
  match target, input with
  | [], _ => .ok consumed () input
  | _ :: _, [] => .err consumed
  | t :: ts, c :: cs => if c == t then pstringGo ts cs true else .err consumed

/-- Consumes an exact string (combine's string). -/
def pstring (s : String) : P String := fun input =>
  match pstringGo s.toList input false with
  | .ok c _ rest => .ok c s rest
  | .err c => .err c

/-- Succeeds exactly at end of input (combine's eof). -/
def peof : P Unit := fun input =>
  match input with
  | [] => .ok false () []
  | _ :: _ => .err false

/-- Succeeds without consuming when the argument fails (combine's
not_followed_by). -/
def pnotFollowedBy (p : P α) : P Unit := fun input =>
  match p input with
  | .ok _ _ _ => .err false
  | .err _ => .ok false () input

/-- Optional parser (combine's optional): a consuming failure still fails. -/
def poptional (p : P α) : P (Option α) := fun input =>
  match p input with
  | .ok c v r => .ok c (some v) r
  | .err false => .ok false none input
  | .err true => .err true

/-- Helper for pmany, with fuel bounded by the input length; an iteration
that succeeds without consuming stops the loop (none of the parsers iterated
in this development can succeed on empty input inside a repetition). -/
def pmanyGo (p : P α) : Nat → Bool → List α → List Char → PRes (List α)
  | 0, consumed, acc, input => .ok consumed acc.reverse input
  | Nat.succ fuel, consumed, acc, input =>
    match p input with
    | .err false => .ok consumed acc.reverse input
    | .err true => .err true
    | .ok false v r => .ok consumed (v :: acc).reverse r
    | .ok true v r => pmanyGo p fuel true (v :: acc) r

/-- Zero-or-more repetition (combine's many); a consuming failure of the
element parser fails the repetition. -/
def pmany (p : P α) : P (List α) := fun input => pmanyGo p input.length false [] input

/-- One-or-more repetition (combine's many1). -/
def pmany1 (p : P α) : P (List α) := pmap (fun x => x.1 :: x.2) (pseq p (pmany p))

/-- Repetition of a character parser collected into a string. -/
def pmanyChars (p : P Char) : P String := pmap (fun l => String.mk l) (pmany p)

/-- One-or-more repetition of a character parser collected into a string. -/
def pmany1Chars (p : P Char) : P String := pmap (fun l => String.mk l) (pmany1 p)

/-- Repetition of a string parser, concatenated (combine's many with a
String accumulator). -/
def pmanyStr (p : P String) : P String := pmap String.join (pmany p)

/-- One-or-more repetition of a string parser, concatenated. -/
def pmany1Str (p : P String) : P String := pmap String.join (pmany1 p)

/-- Delimited parser (combine's between(open, close, inner)). -/
def pbetween (openP closeP : P Char) (inner : P α) : P α :=
  pmap (fun x => x.1.2) (pseq (pseq openP inner) closeP)

/-- Helper for ptakeUntil: consumes characters until the stop parser would
succeed, leaving the stop text unconsumed; fails at end of input. -/
def ptakeUntilGo (stopP : P String) : Nat → Bool → List Char → List Char → PRes String
  | 0, consumed, _, _ => .err consumed
  | Nat.succ fuel, consumed, acc, input =>
    match stopP input with
    | .ok _ _ _ => .ok consumed (String.mk acc.reverse) input
    | .err _ =>
      match input with
      | [] => .err consumed
      | c :: rest => ptakeUntilGo stopP fuel true (c :: acc) rest

/-- Consumes input until the stop parser succeeds (combine's take_until);
the stop text itself is not consumed. -/
def ptakeUntil (stopP : P String) : P String := fun input =>
  ptakeUntilGo stopP (input.length + 1) false [] input

/- Character classes used by the recognizers. -/

/-- Models Rust's char::is_whitespace (the Unicode White_Space property),
used by str::trim_left. -/
def is_rust_whitespace (c : Char) : Bool :=
  (0x09 ≤ c.toNat && c.toNat ≤ 0x0D) || c.toNat == 0x20 || c.toNat == 0x85
  || c.toNat == 0xA0 || c.toNat == 0x1680
  || (0x2000 ≤ c.toNat && c.toNat ≤ 0x200A)
  || c.toNat == 0x2028 || c.toNat == 0x2029 || c.toNat == 0x202F
  || c.toNat == 0x205F || c.toNat == 0x3000

/-- Models Rust str::trim_left: drops leading whitespace. -/
def trim_left (s : List Char) : List Char := s.dropWhile is_rust_whitespace

/-- Models Rust char::is_alphabetic as used by combine's letter().  Only the
ASCII range is modelled (non-ASCII Unicode letters are outside the scope of
every input considered in this development, and every concrete input in the
theorems below is ASCII, where the two functions coincide). -/
def is_alphabetic (c : Char) : Bool := c.isAlpha

/-- Models combine's digit(): a decimal ASCII digit. -/
def is_digit10 (c : Char) : Bool := c.isDigit

/-- Models combine's hex_digit(): a hexadecimal digit. -/
def is_digit16 (c : Char) : Bool :=
  c.isDigit || ('a' ≤ c && c ≤ 'f') || ('A' ≤ c && c ≤ 'F')

/-- Models combine's oct_digit(): an octal digit. -/
def is_digit8 (c : Char) : Bool := '0' ≤ c && c ≤ '7'

/-- Synonym for the string type, usable inside the Token namespace where the
String constructor shadows the type name. -/
abbrev Str := String

/-- The token type of src/src/tokens.rs.  The RegEx payload of regex.rs (a
struct of body and optional flags) is flattened into the two fields of the
RegEx variant, matching the RegEx(String, Option String) payload declared in
src/src/tokens.rs. -/
inductive Token where
  | Boolean (b : Bool)
  | EoF
  | Ident (s : String)
  | Keyword (s : String)
  | Null
  | Numeric (s : String)
  | Punct (s : String)
  | String (s : String)
  | RegEx (body : String) (flags : Option String)
  | Template (s : String)
  | Comment (s : String)
deriving DecidableEq

/-- Modelled from the spec: the Token helper predicates used by the scanner
driver in src/src/lib.rs live in a tokens module revision that is absent
from src (only the enum of src/src/tokens.rs is present).  A token matches
a punctuator when it is the Punct variant carrying that symbol. -/
def Token.matches_punct : Token → Str → Bool
  | .Punct s, p => s == p
  | _, _ => false

/-- Modelled from the spec: a token matches a keyword when it is the Keyword
variant carrying that word. -/
def Token.matches_keyword : Token → Str → Bool
  | .Keyword s, k => s == k
  | _, _ => false

/-- Modelled from the spec: a token is a keyword when it is the Keyword
variant. -/
def Token.is_keyword : Token → Bool
  | .Keyword _ => true
  | _ => false

/-- Modelled from the spec: a token is a punctuator when it is the Punct
variant. -/
def Token.is_punct : Token → Bool
  | .Punct _ => true
  | _ => false

/-- Modelled from the spec: a token is an identifier when it is the Ident
variant. -/
def Token.is_ident : Token → Bool
  | .Ident _ => true
  | _ => false

/-- Modelled from the spec: the end-of-input token. -/
def Token.is_eof : Token → Bool
  | .EoF => true
  | _ => false

/-- Modelled from the spec: the template Head/Tail part kinds are carried by
the tokens module revision absent from src; the Token enum present in
src/src/tokens.rs has a single Template payload without a kind, and its
token recognizer never produces a Template token at all (template support is
an unimplemented TODO at src/src/tokens.rs line 67), so a scanner never sets
its template flags and this predicate is only consulted on tokens that are
not template parts, where it is false. -/
def Token.is_template_head : Token → Bool := fun _ => false

/-- Modelled from the spec: see is_template_head; this predicate is only
reachable while in_replacement is set, which never happens because the token
recognizer of src/src/tokens.rs cannot emit a template Head. -/
def Token.is_template_tail : Token → Bool := fun _ => false

/- Recognizers of src/src/tokens.rs. -/

/-- Models single_comment: a line comment, content up to a line terminator. -/
def single_comment : P Token :=
  pmap (fun x => Token.Comment x.2)
    (pseq (pstring "//") (pmanyChars (pnoneOf ['\n', '\r'])))

/-- Models multi_line_comment_start. -/
def multi_line_comment_start : P String := pstring "/*"

/-- Models multi_line_comment_end. -/
def multi_line_comment_end : P String := pstring "*/"

/-- Models Rust str::lines: splits on a newline, dropping a trailing
carriage return on each line, with no final empty line for trailing
newlines. -/
def rust_lines (s : String) : List String :=
  let parts := s.splitOn "\n"
  let parts :=
    match parts.getLast? with
    | some last => if last = "" then parts.dropLast else parts
    | none => parts
  parts.map (fun l => if l.endsWith "\r" then l.dropRight 1 else l)

/-- Models Rust str::trim: drops whitespace from both ends. -/
def rust_trim (s : String) : String :=
  String.mk (((s.toList.dropWhile is_rust_whitespace).reverse.dropWhile
    is_rust_whitespace).reverse)

/-- Models multi_comment: a block comment, each content line trimmed and the
lines rejoined with newlines. -/
def multi_comment : P Token :=
  pmap (fun x =>
      Token.Comment (String.intercalate "\n" ((rust_lines x.1.2).map rust_trim)))
    (pseq (pseq multi_line_comment_start (ptakeUntil (ptry (pstring "*/"))))
      multi_line_comment_end)

/-- Models comment: a block comment or a line comment. -/
def comment : P Token := porelse (ptry multi_comment) (ptry single_comment)

/-- Models boolean_literal: the text true or false, with no lookahead
guard. -/
def boolean_literal : P Token :=
  pmap (fun t => Token.Boolean (t == "true"))
    (porelse (pstring "true") (pstring "false"))

/-- Models end_of_input. -/
def end_of_input : P Token := pmap (fun _ => Token.EoF) peof

/-- Models ident: a dollar, underscore or letter, then any characters other
than newline, carriage return, dot, space, open paren, open bracket and open
brace (the source's none_of list). -/
def ident : P Token :=
  pmap (fun x => Token.Ident (String.mk (x.1 :: x.2)))
    (pseq
      (pchoice [pchar '$', pchar '_', psatisfy is_alphabetic])
      (pmany (pchoice [pchar '$', pchar '_',
        pnoneOf ['\n', '\r', '.', ' ', '(', '[', '\x7b']])))

/-- Models reserved: the reserved words in source order (instanceof before
in). -/
def reserved : P Token :=
  pmap (fun t => Token.Keyword t)
    (pchoice [ptry (pstring "break"), ptry (pstring "case"),
      ptry (pstring "catch"), ptry (pstring "continue"),
      ptry (pstring "debugger"), ptry (pstring "default"),
      ptry (pstring "delete"), ptry (pstring "do"), ptry (pstring "else"),
      ptry (pstring "finally"), ptry (pstring "for"),
      ptry (pstring "function"), ptry (pstring "if"),
      ptry (pstring "instanceof"), ptry (pstring "in"),
      ptry (pstring "new"), ptry (pstring "return"),
      ptry (pstring "switch"), ptry (pstring "this"),
      ptry (pstring "throw"), ptry (pstring "try"),
      ptry (pstring "typeof"), ptry (pstring "var"), ptry (pstring "void"),
      ptry (pstring "while"), ptry (pstring "with")])

/-- Models future_reserved. -/
def future_reserved : P Token :=
  pmap (fun t => Token.Keyword t)
    (pchoice [ptry (pstring "export"), ptry (pstring "import"),
      ptry (pstring "super"), ptry (pstring "enum")])

/-- Models strict_mode_reserved. -/
def strict_mode_reserved : P Token :=
  pmap (fun t => Token.Keyword t)
    (pchoice [ptry (pstring "implements"), ptry (pstring "interface"),
      ptry (pstring "package"), ptry (pstring "private"),
      ptry (pstring "protected"), ptry (pstring "public"),
      ptry (pstring "static"), ptry (pstring "yield"),
      ptry (pstring "let")])

/-- Models restricted. -/
def restricted : P Token :=
  pmap (fun t => Token.Keyword t)
    (pchoice [ptry (pstring "eval"), ptry (pstring "arguments")])

/-- Models keyword: the keyword groups in source order. -/
def keyword : P Token :=
  pchoice [future_reserved, strict_mode_reserved, restricted, reserved]

/-- Models null_literal, with no lookahead guard. -/
def null_literal : P Token := pmap (fun _ => Token.Null) (pstring "null")

/-- Models the optional sign prefix shared by every numeric recognizer:
optional(choice([c_char('-'), c_char('+')])). -/
def numeric_sign : P (Option Char) := poptional (porelse (pchar '-') (pchar '+'))

/-- Builds the numeric lexeme text from an optional sign and the remaining
pieces, mirroring each recognizer's map closure. -/
def sign_str : Option Char → String
  | some c => String.mk [c]
  | none => ""

/-- Models full_decimal_literal: optional sign, digits, optional fraction,
optional exponent; the sign is pushed onto the returned lexeme. -/
def full_decimal_literal : P Token :=
  pmap (fun x =>
      let sign := x.1.1.1
      let whole := x.1.1.2
      let frac := x.1.2
      let exp := x.2
      Token.Numeric (sign_str sign ++ whole
        ++ (match frac with
            | some fr => String.mk [fr.1] ++ fr.2
            | none => "")
        ++ (match exp with
            | some e => String.mk [e.1] ++ e.2
            | none => "")))
    (pseq
      (pseq
        (pseq numeric_sign (pmany1Chars (psatisfy is_digit10)))
        (poptional (pseq (pchar '.') (pmanyChars (psatisfy is_digit10)))))
      (poptional (pseq (porelse (pchar 'e') (pchar 'E'))
        (pmany1Chars (psatisfy is_digit10)))))

/-- Models no_leading_decimal: optional sign, dot, digits, optional
exponent. -/
def no_leading_decimal : P Token :=
  pmap (fun x =>
      let sign := x.1.1.1
      let dot := x.1.1.2
      let digits := x.1.2
      let exp := x.2
      Token.Numeric (sign_str sign ++ String.mk [dot] ++ digits
        ++ (match exp with
            | some e => String.mk [e.1] ++ e.2
            | none => "")))
    (pseq
      (pseq (pseq numeric_sign (pchar '.')) (pmany1Chars (psatisfy is_digit10)))
      (poptional (pseq (porelse (pchar 'e') (pchar 'E'))
        (pmany1Chars (psatisfy is_digit10)))))

/-- Models hex_literal: optional sign, 0, x or X, hex digits. -/
def hex_literal : P Token :=
  pmap (fun x =>
      Token.Numeric (sign_str x.1.1.1 ++ String.mk [x.1.1.2, x.1.2] ++ x.2))
    (pseq
      (pseq (pseq numeric_sign (pchar '0')) (porelse (pchar 'x') (pchar 'X')))
      (pmany1Chars (psatisfy is_digit16)))

/-- Models bin_literal: optional sign, 0, b or B, binary digits. -/
def bin_literal : P Token :=
  pmap (fun x =>
      Token.Numeric (sign_str x.1.1.1 ++ String.mk [x.1.1.2, x.1.2] ++ x.2))
    (pseq
      (pseq (pseq numeric_sign (pchar '0')) (porelse (pchar 'b') (pchar 'B')))
      (pmany1Chars (porelse (pchar '1') (pchar '0'))))

/-- Models octal_literal: optional sign, 0, o or O, octal digits. -/
def octal_literal : P Token :=
  pmap (fun x =>
      Token.Numeric (sign_str x.1.1.1 ++ String.mk [x.1.1.2, x.1.2] ++ x.2))
    (pseq
      (pseq (pseq numeric_sign (pchar '0')) (porelse (pchar 'o') (pchar 'O')))
      (pmany1Chars (psatisfy is_digit8)))

/-- Models decimal_literal. -/
def decimal_literal : P Token :=
  porelse (ptry full_decimal_literal) (ptry no_leading_decimal)

/-- Models numeric_literal: binary, octal, hex, then decimal. -/
def numeric_literal : P Token :=
  pchoice [ptry bin_literal, ptry octal_literal, ptry hex_literal,
    ptry decimal_literal]

/-- Models normal_punct: the single-character punctuators in source order
(the forward slash is not among them). -/
def normal_punct : P String :=
  pmap (fun c => String.mk [c])
    (pchoice [pchar '\x7b', pchar '\x7d', pchar '(', pchar ')', pchar '.',
      pchar ';', pchar ',', pchar '[', pchar ']', pchar ':', pchar '?',
      pchar '~', pchar '>', pchar '<', pchar '=', pchar '!', pchar '+',
      pchar '-', pchar '*', pchar '%', pchar '&', pchar '|', pchar '^'])

/-- Models div_punct: a slash not followed by an asterisk. -/
def div_punct : P String := pleft (pstring "/") (pnotFollowedBy (pchar '*'))

/-- Models single_punct. -/
def single_punct : P String := porelse (ptry normal_punct) (ptry div_punct)

/-- Models multi_punct: the multi-character punctuators, longest first, in
source order. -/
def multi_punct : P String :=
  pchoice [ptry (pstring ">>>="),
    ptry (pstring "..."),
    ptry (pstring "==="), ptry (pstring "!=="), ptry (pstring ">>>"),
    ptry (pstring "<<="), ptry (pstring ">>="), ptry (pstring "**="),
    ptry (pstring "&&"), ptry (pstring "||"), ptry (pstring "=="),
    ptry (pstring "!="), ptry (pstring "+="), ptry (pstring "-="),
    ptry (pstring "*="), ptry (pstring "/="), ptry (pstring "++"),
    ptry (pstring "--"), ptry (pstring "<<"), ptry (pstring ">>"),
    ptry (pstring "&="), ptry (pstring "|="), ptry (pstring "^="),
    ptry (pstring "%="), ptry (pstring "<="), ptry (pstring ">="),
    ptry (pstring "=>"), ptry (pstring "**")]

/-- Models punctuation. -/
def punctuation : P Token :=
  pmap (fun t => Token.Punct t) (porelse (ptry multi_punct) (ptry single_punct))

/-- Models the local escaped helper of tokens.rs: a backslash followed by
the given character, yielding only that character (the backslash is
dropped). -/
def escaped (q : Char) : P Char := pmap (fun x => x.2) (pseq (pchar '\\') (pchar q))

/-- Models single_quoted_content: an escaped quote, an escaped backslash, or
any character other than quote and line terminators; the map re-expands an
escaped quote to backslash-quote but leaves every other result as the single
character. -/
def single_quoted_content : P String :=
  pmap (fun c => if c == '\'' then String.mk ['\\', c] else String.mk [c])
    (pchoice [ptry (escaped '\''), ptry (escaped '\\'),
      ptry (pnoneOf ['\'', '\n', '\r'])])

/-- Models single_quote. -/
def single_quote : P String :=
  pbetween (pchar '\'') (pchar '\'') (pmanyStr single_quoted_content)

/-- Models double_quoted_content, symmetric to the single-quoted case. -/
def double_quoted_content : P String :=
  pmap (fun c => if c == '"' then String.mk ['\\', c] else String.mk [c])
    (pchoice [ptry (escaped '"'), ptry (escaped '\\'),
      ptry (pnoneOf ['"', '\n', '\r'])])

/-- Models double_quote. -/
def double_quote : P String :=
  pbetween (pchar '"') (pchar '"') (pmanyStr double_quoted_content)

/-- Models string_literal. -/
def string_literal : P Token :=
  pmap (fun s => Token.String s) (porelse (ptry single_quote) (ptry double_quote))

/-- Models regex_first_char of tokens.rs: any character other than the line
terminators and backslash. -/
def tokens_regex_first_char : P Char := pchoice [pnoneOf ['\n', '\r', '\\']]

/-- Models regex_char of tokens.rs: an escaped slash (re-expanded to
backslash-slash by the map) or any character other than slash and line
terminators; the escaped alternative is not wrapped in try, so a backslash
followed by anything but a slash is a consuming failure. -/
def tokens_regex_char : P String :=
  pmap (fun c => if c == '/' then String.mk ['\\', '/'] else String.mk [c])
    (porelse (escaped '/') (pnoneOf ['/', '\r', '\n']))

/-- Models regex of tokens.rs: slash, a first character and at least one
further character, slash, then optional letter flags. -/
def regex : P Token :=
  pmap (fun x => Token.RegEx (String.mk [x.1.1] ++ x.1.2) x.2)
    (pseq
      (pbetween (pchar '/') (pchar '/')
        (pseq tokens_regex_first_char (pmany1Str tokens_regex_char)))
      (poptional (pmany1Chars (psatisfy is_alphabetic))))

/-- Models token of src/src/tokens.rs: the dispatch order is comment,
boolean, keyword, ident, null, numeric, regex, punctuation, string, end of
input (ident is tried before null, as in the source). -/
def token : P Token :=
  pchoice [ptry comment, ptry boolean_literal, ptry keyword, ptry ident,
    ptry null_literal, ptry numeric_literal, ptry regex, ptry punctuation,
    ptry string_literal, ptry end_of_input]

end JsParse

namespace JsParse.Regex

/-- Models is_source_char of regex.rs: a code point at most 4095. -/
def is_source_char (c : Char) : Bool := c.toNat ≤ 4095

/-- Models is_line_term of regex.rs. -/
def is_line_term (c : Char) : Bool :=
  c == '\n' || c == '\r' || c == ' ' || c == ' '

/-- Models RegEx::from_parts together with the Token::RegEx wrapping: empty
flags are normalised to none. -/
def from_parts (body : String) (flags : Option String) : Token :=
  Token.RegEx body
    (match flags with
     | some f => if f == "" then none else some f
     | none => none)

/-- Models source_char_not_line_term. -/
def source_char_not_line_term : P Char :=
  psatisfy (fun c => is_source_char c && !is_line_term c)

/-- Models regular_expression_backslash_sequence. -/
def regular_expression_backslash_sequence : P String :=
  pmap (fun x => String.mk [x.1, x.2])
    (pseq (pchar '\\') source_char_not_line_term)

/-- Models regular_expression_class_char. -/
def regular_expression_class_char : P String :=
  porelse
    (ptry (pmap (fun c => String.mk [c])
      (psatisfy (fun c => c.toNat ≤ 4095 && !(c == '\n') && !(c == '\\')
        && !(c == ']')))))
    (ptry regular_expression_backslash_sequence)

/-- Models regular_expression_class: bracketed class characters. -/
def regular_expression_class : P String :=
  pmap (fun s => "[" ++ s ++ "]")
    (pbetween (pchar '[') (pchar ']') (pmanyStr regular_expression_class_char))

/-- Models regex_body_first_source_char. -/
def regex_body_first_source_char : P String :=
  pmap (fun c => String.mk [c])
    (psatisfy (fun c => c.toNat ≤ 4095 && !(c == '\n') && !(c == '*')
      && !(c == '\\') && !(c == '/') && !(c == '[')))

/-- Models regex_body_source_char. -/
def regex_body_source_char : P String :=
  pmap (fun c => String.mk [c])
    (psatisfy (fun c => c.toNat ≤ 4095 && !(c == '\n') && !(c == '\\')
      && !(c == '/') && !(c == '[')))

/-- Models regex_first_char of regex.rs. -/
def regex_first_char : P String :=
  pchoice [ptry regex_body_first_source_char,
    ptry regular_expression_backslash_sequence,
    ptry regular_expression_class]

/-- Models regex_char of regex.rs. -/
def regex_char : P String :=
  pchoice [ptry regex_body_source_char,
    ptry regular_expression_backslash_sequence,
    ptry regular_expression_class]

/-- Models regex_body. -/
def regex_body : P String := pmap (fun x => x.1 ++ x.2) (pseq regex_first_char (pmanyStr regex_char))

/-- Modelled from the spec: ident_part lives in the tokens module revision
absent from src; per the spec, identifier-part characters are the
identifier-start set (dollar, underscore, Unicode letters) plus decimal
digits, combining marks and connector punctuation (not modelled beyond the
ASCII range) and the zero-width joiner and non-joiner. -/
def ident_part : P Char :=
  psatisfy (fun c => c == '$' || c == '_' || is_alphabetic c || c.isDigit
    || c.toNat == 0x200C || c.toNat == 0x200D)

/-- Models regex_flags: zero or more identifier-part characters. -/
def regex_flags : P String := pmanyChars ident_part

/-- Models regex_tail of src/src/regex.rs: the body (the opening slash was
already consumed by the caller), the closing slash, then optional flags. -/
def regex_tail : P Token :=
  pmap (fun x => from_parts x.1.1 x.2)
    (pseq (pseq (ptry regex_body) (pchar '/')) (poptional (ptry regex_flags)))

end JsParse.Regex

namespace JsParse

/-- Modelled from the spec: the strings module holding the template part
recognizer is absent from src.  Per the spec a template part opens with a
back-tick or a closing brace, its content is any character other than
back-tick or dollar, and it closes with a back-tick or a dollar-brace; only
the inner text can be kept because the Template variant of src/src/tokens.rs
has a single payload.  No scanner run in this development can reach this
parser: the token recognizer of src/src/tokens.rs never emits a template
Head, so the template mode flags stay false. -/
def template : P Token :=
  pmap (fun x => Token.Template x.1.2)
    (pseq
      (pseq (porelse (pchar (Char.ofNat 0x60)) (pchar '\x7d'))
        (pmanyChars (pnoneOf [Char.ofNat 0x60, '$'])))
      (porelse (pmap (fun c => String.mk [c]) (pchar (Char.ofNat 0x60)))
        (pmap (fun x => String.mk [x.1, x.2]) (pseq (pchar '$') (pchar '\x7b')))))

/-- A half-open span of offsets, as in src/src/lib.rs (offsets are modelled
as character offsets; every concrete input below is ASCII). -/
structure Span where
  start : Nat
  stop : Nat
deriving DecidableEq

/-- An item of the scanner iterator: a token with its span. -/
structure Item where
  token : Token
  span : Span
deriving DecidableEq

/-- The Scanner state of src/src/lib.rs. -/
structure Scanner where
  stream : List Char
  eof : Bool
  cursor : Nat
  spans : List Span
  last_open_paren_idx : Nat
  in_template : Bool
  in_replacement : Bool
deriving DecidableEq

/-- Models Scanner::new: the cursor starts past any leading whitespace, the
span history is empty, and last_open_paren_idx starts at zero. -/
def Scanner.new (text : String) : Scanner :=
  let s := text.toList
  { stream := s
    eof := false
    cursor := s.length - (trim_left s).length
    spans := []
    last_open_paren_idx := 0
    in_template := false
    in_replacement := false }

/-- Models Scanner::token_for: re-lexes the span's substring with the token
recognizer. -/
def token_for (s : Scanner) (sp : Span) : Option Token :=
  (runP token ((s.stream.drop sp.start).take (sp.stop - sp.start))).map Prod.fst

/-- Models Scanner::last_token. -/
def last_token (s : Scanner) : Option Token :=
  match s.spans.getLast? with
  | none => none
  | some sp => token_for s sp

/-- Models Scanner::nth_before_last_open_paren.  The guard only compares n
against the span count; when n exceeds last_open_paren_idx the usize
subtraction underflows and Rust panics (in release mode the wrapped index is
out of bounds, which also panics), modelled as the error case. -/
def nth_before_last_open_paren (s : Scanner) (n : Nat) : Except Unit (Option Token) :=
  if s.spans.length < n then .ok none
  else if n ≤ s.last_open_paren_idx then
    match s.spans.get? (s.last_open_paren_idx - n) with
    | some sp => .ok (token_for s sp)
    | none => .error ()
  else .error ()

/-- Models Scanner::check_for_conditional. -/
def check_for_conditional (s : Scanner) : Except Unit Bool :=
  match nth_before_last_open_paren s 1 with
  | .error e => .error e
  | .ok (some before) =>
    .ok (before.matches_keyword "if" || before.matches_keyword "for"
      || before.matches_keyword "while" || before.matches_keyword "with")
  | .ok none => .ok true

/-- Models Scanner::check_for_expression: the token must be an open paren
and must not be any of the listed punctuators and keywords. -/
def check_for_expression (t : Token) : Bool :=
  t.matches_punct "("
  && !(t.matches_punct "\x7b") && !(t.matches_punct "[")
  && !(t.matches_punct "=") && !(t.matches_punct "+=")
  && !(t.matches_punct "-=") && !(t.matches_punct "*=")
  && !(t.matches_punct "**=") && !(t.matches_punct "/=")
  && !(t.matches_punct "%=") && !(t.matches_punct "<<=")
  && !(t.matches_punct ">>=") && !(t.matches_punct ">>>=")
  && !(t.matches_punct "&=") && !(t.matches_punct "|=")
  && !(t.matches_punct "^=") && !(t.matches_punct ",")
  && !(t.matches_punct "+") && !(t.matches_punct "-")
  && !(t.matches_punct "*") && !(t.matches_punct "**")
  && !(t.matches_punct "/") && !(t.matches_punct "%")
  && !(t.matches_punct "++") && !(t.matches_punct "--")
  && !(t.matches_punct "<<") && !(t.matches_punct ">>")
  && !(t.matches_punct ">>>") && !(t.matches_punct "&")
  && !(t.matches_punct "|") && !(t.matches_punct "^")
  && !(t.matches_punct "!") && !(t.matches_punct "~")
  && !(t.matches_punct "&&") && !(t.matches_punct "||")
  && !(t.matches_punct "?") && !(t.matches_punct ":")
  && !(t.matches_punct "===") && !(t.matches_punct "==")
  && !(t.matches_punct ">=") && !(t.matches_punct "<=")
  && !(t.matches_punct "<") && !(t.matches_punct ">")
  && !(t.matches_punct "!=") && !(t.matches_punct "!==")
  && !(t.matches_keyword "in") && !(t.matches_keyword "typeof")
  && !(t.matches_keyword "instanceof") && !(t.matches_keyword "new")
  && !(t.matches_keyword "return") && !(t.matches_keyword "case")
  && !(t.matches_keyword "delete") && !(t.matches_keyword "throw")
  && !(t.matches_keyword "void")

/-- Models Scanner::check_for_func, including the fall-through to true. -/
def check_for_func (s : Scanner) : Except Unit Bool :=
  match nth_before_last_open_paren s 1 with
  | .error e => .error e
  | .ok (some before) =>
    if before.is_ident then
      match nth_before_last_open_paren s 3 with
      | .error e => .error e
      | .ok (some three_before) => .ok (check_for_expression three_before)
      | .ok none => .ok true
    else if before.matches_keyword "function" then
      match nth_before_last_open_paren s 2 with
      | .error e => .error e
      | .ok (some two_before) => .ok (check_for_expression two_before)
      | .ok none => .ok false
    else .ok true
  | .ok none => .ok true

/-- Models Scanner::is_regex_start.  With an empty history the result is
false; the second branch catches a closing brace before the later
check_for_func branch can (the latter is dead code in the source). -/
def is_regex_start (s : Scanner) : Except Unit Bool :=
  match last_token s with
  | some lt =>
    if !lt.is_keyword && !lt.is_punct then .ok false
    else if lt.matches_keyword "this" || lt.matches_punct "\x7d" then .ok false
    else if lt.matches_punct ")" then check_for_conditional s
    else if lt.matches_punct "\x7d" then check_for_func s
    else .ok true
  | none => .ok false

/-- Result of one call to Scanner::next: exhausted, an item with the updated
state, or a Rust panic. -/
inductive NextRes where
  | none
  | item (it : Item) (s : Scanner)
  | panic
deriving DecidableEq

/-- Models the else branch of Scanner::next: record the open paren index,
the eof flag and the template flags, push the span, advance the cursor past
trailing whitespace, return the item. -/
def emit_general (s : Scanner) (tok : Token) (rest : List Char) : NextRes :=
  NextRes.item ⟨tok, ⟨s.cursor, s.stream.length - rest.length⟩⟩
    { stream := s.stream
      eof := if tok.is_eof then true else s.eof
      cursor := s.stream.length - (trim_left rest).length
      spans := s.spans ++ [⟨s.cursor, s.stream.length - rest.length⟩]
      last_open_paren_idx :=
        if tok.matches_punct "(" then s.spans.length else s.last_open_paren_idx
      in_template := if tok.is_template_head then true else s.in_template
      in_replacement := if tok.is_template_head then true else s.in_replacement }

/-- Models Scanner::next.  Parse failures are Rust panics in the source and
are returned as the panic case. -/
def scanner_next (s : Scanner) : NextRes :=
  if s.eof then .none
  else
    match
      (if s.in_template && !s.in_replacement then runP template (s.stream.drop s.cursor)
       else runP token (s.stream.drop s.cursor)) with
    | Option.none => .panic
    | some (tok, rest) =>
      if tok.matches_punct "/" then
        match is_regex_start s with
        | .error _ => .panic
        | .ok true =>
          match runP Regex.regex_tail rest with
          | Option.none => .panic
          | some (rtok, rrest) =>
            NextRes.item ⟨rtok, ⟨s.cursor, s.stream.length - rrest.length⟩⟩
              { s with
                spans := s.spans ++ [⟨s.cursor, s.stream.length - rrest.length⟩]
                cursor := s.stream.length - (trim_left rrest).length }
        | .ok false => emit_general s tok rest
      else if s.in_replacement && tok.matches_punct "\x7d" then
        match runP template rest with
        | Option.none => .panic
        | some (ttok, trest) =>
          NextRes.item ⟨ttok, ⟨s.cursor, s.stream.length - trest.length⟩⟩
            { s with
              in_template := if ttok.is_template_tail then false else s.in_template
              in_replacement := if ttok.is_template_tail then false else s.in_replacement
              spans := s.spans ++ [⟨s.cursor, s.stream.length - trest.length⟩]
              cursor := s.stream.length - (trim_left trest).length }
      else emit_general s tok rest

/-- Result of draining the iterator with bounded fuel. -/
inductive ScanOut where
  | done (items : List Item)
  | panicked (items : List Item)
  | out_of_fuel (items : List Item)
deriving DecidableEq

/-- The items collected before the iterator stopped. -/
def ScanOut.items : ScanOut → List Item
  | .done l => l
  | .panicked l => l
  | .out_of_fuel l => l

/-- Drains the scanner, collecting items, with fuel. -/
def scan_loop (fuel : Nat) (s : Scanner) (acc : List Item) : ScanOut :=
  match fuel with
  | 0 => .out_of_fuel acc.reverse
  | Nat.succ n =>
    match scanner_next s with
    | .none => .done acc.reverse
    | .panic => .panicked acc.reverse
    | .item it s' => scan_loop n s' (it :: acc)

/-- Tokenizes a complete text, as the crate's tokenize / iteration does. -/
def scan (text : String) : ScanOut :=
  scan_loop (text.length + 2) (Scanner.new text) []

/-- The tokens of a list of items. -/
def item_tokens (l : List Item) : List Token := l.map Item.token

/-- The number of EoF tokens among a list of items. -/
def eof_count (l : List Item) : Nat :=
  l.countP (fun it => decide (it.token = Token.EoF))

end JsParse

namespace JsParse

/- Helper lemmas shared by the claim theorems. -/

/-- Running a mapped parser maps the result. -/
lemma runP_pmap (f : α → β) (p : P α) (i : List Char) :
    runP (pmap f p) i = Option.map (fun x => (f x.1, x.2)) (runP p i) := by
  cases h : p i <;> simp [runP, pmap, h]

/-- The from_parts wrapper always builds a RegEx token. -/
lemma from_parts_shape (body : String) (flags : Option String) :
    ∃ b fl, Regex.from_parts body flags = Token.RegEx b fl := by
  cases flags <;> simp [Regex.from_parts]

/-- A successful run of regex_tail always yields a RegEx token. -/
lemma regex_tail_run_shape {i : List Char} {v : Token} {r : List Char}
    (h : runP Regex.regex_tail i = some (v, r)) : ∃ b fl, v = Token.RegEx b fl := by
  unfold Regex.regex_tail at h
  rw [runP_pmap] at h
  rw [Option.map_eq_some'] at h
  obtain ⟨a, _, ha⟩ := h
  injection ha with ha1 ha2
  obtain ⟨b, fl, hb⟩ := from_parts_shape a.1.1.1 a.1.2
  refine ⟨b, fl, ?_⟩
  rw [← ha1]
  exact hb

/-- A successful run of the template recognizer always yields a Template
token. -/
lemma template_run_shape {i : List Char} {v : Token} {r : List Char}
    (h : runP template i = some (v, r)) : ∃ s, v = Token.Template s := by
  unfold template at h
  rw [runP_pmap] at h
  rw [Option.map_eq_some'] at h
  obtain ⟨a, _, ha⟩ := h
  injection ha with ha1 ha2
  exact ⟨a.1.1.2, ha1.symm⟩

/-- Once the eof flag is set, next yields nothing. -/
lemma next_of_eof (s : Scanner) (h : s.eof = true) : scanner_next s = NextRes.none := by
  simp [scanner_next, h]

/-- The else branch of next returns the recognized token unchanged and sets
the eof flag exactly when that token is EoF. -/
lemma emit_general_item (s : Scanner) (tok : Token) (rest : List Char)
    (it : Item) (s' : Scanner) (h : emit_general s tok rest = NextRes.item it s') :
    it.token = tok ∧ s'.eof = (if tok.is_eof then true else s.eof) := by
  unfold emit_general at h
  simp only [NextRes.item.injEq] at h
  obtain ⟨h1, h2⟩ := h
  subst h1
  subst h2
  exact ⟨rfl, rfl⟩

/-- Whenever next yields the EoF token, the successor state has the eof flag
set. -/
lemma next_item_eof (s : Scanner) (it : Item) (s' : Scanner)
    (h : scanner_next s = NextRes.item it s') (ht : it.token = Token.EoF) :
    s'.eof = true := by
  unfold scanner_next at h
  by_cases he : s.eof = true
  · rw [if_pos he] at h
    exact NextRes.noConfusion h
  · rw [if_neg he] at h
    cases hp : (if s.in_template && !s.in_replacement then runP template (s.stream.drop s.cursor)
        else runP token (s.stream.drop s.cursor)) with
    | none =>
      simp only [hp] at h
      exact NextRes.noConfusion h
    | some pr =>
      obtain ⟨tok, rest⟩ := pr
      simp only [hp] at h
      by_cases hsl : tok.matches_punct "/" = true
      · rw [if_pos hsl] at h
        cases hrs : is_regex_start s with
        | error e =>
          simp only [hrs] at h
          exact NextRes.noConfusion h
        | ok b =>
          cases b with
          | true =>
            simp only [hrs] at h
            cases hrt : runP Regex.regex_tail rest with
            | none =>
              simp only [hrt] at h
              exact NextRes.noConfusion h
            | some pr2 =>
              obtain ⟨rtok, rrest⟩ := pr2
              simp only [hrt, NextRes.item.injEq] at h
              obtain ⟨b2, f2, hsh⟩ := regex_tail_run_shape hrt
              rw [← h.1] at ht
              rw [hsh] at ht
              simp at ht
          | false =>
            simp only [hrs] at h
            have hgen := emit_general_item s tok rest it s' h
            rw [hgen.1] at ht
            rw [ht] at hgen
            simpa [Token.is_eof] using hgen.2
      · rw [if_neg hsl] at h
        by_cases hrb : (s.in_replacement && tok.matches_punct "\x7d") = true
        · rw [if_pos hrb] at h
          cases htm : runP template rest with
          | none =>
            simp only [htm] at h
            exact NextRes.noConfusion h
          | some pr3 =>
            obtain ⟨ttok, trest⟩ := pr3
            simp only [htm, NextRes.item.injEq] at h
            obtain ⟨str, hsh⟩ := template_run_shape htm
            rw [← h.1] at ht
            rw [hsh] at ht
            simp at ht
        · rw [if_neg hrb] at h
          have hgen := emit_general_item s tok rest it s' h
          rw [hgen.1] at ht
          rw [ht] at hgen
          simpa [Token.is_eof] using hgen.2

/-- The accumulator of scan_loop only prepends already-collected items. -/
lemma scan_loop_items_acc (fuel : Nat) : ∀ (s : Scanner) (acc : List Item),
    (scan_loop fuel s acc).items = acc.reverse ++ (scan_loop fuel s []).items := by
  induction fuel with
  | zero => intro s acc; simp [scan_loop, ScanOut.items]
  | succ n ih =>
    intro s acc
    cases h : scanner_next s with
    | none => simp [scan_loop, h, ScanOut.items]
    | panic => simp [scan_loop, h, ScanOut.items]
    | item it s' =>
      simp only [scan_loop, h]
      rw [ih s' (it :: acc), ih s' [it]]
      simp

/-- A scanner whose eof flag is set produces no further items. -/
lemma scan_loop_of_eof (fuel : Nat) (s : Scanner) (h : s.eof = true) :
    (scan_loop fuel s []).items = [] := by
  cases fuel with
  | zero => simp [scan_loop, ScanOut.items]
  | succ n => simp [scan_loop, next_of_eof s h, ScanOut.items]

/-- A scan emits at most one EoF item. -/
lemma scan_loop_eof_count (fuel : Nat) : ∀ s : Scanner,
    eof_count ((scan_loop fuel s []).items) ≤ 1 := by
  induction fuel with
  | zero => intro s; simp [scan_loop, ScanOut.items, eof_count]
  | succ n ih =>
    intro s
    cases h : scanner_next s with
    | none => simp [scan_loop, h, ScanOut.items, eof_count]
    | panic => simp [scan_loop, h, ScanOut.items, eof_count]
    | item it s' =>
      simp only [scan_loop, h]
      rw [scan_loop_items_acc n s' [it]]
      by_cases ht : it.token = Token.EoF
      · rw [scan_loop_of_eof n s' (next_item_eof s it s' h ht)]
        simp [eof_count, ht]
      · have hrec := ih s'
        simp only [eof_count, List.countP_append] at hrec ⊢
        simp [List.countP_cons, ht]
        exact hrec

/-- Unfolding lemma: one successful step of the scan loop. -/
lemma scan_loop_step (n : Nat) (s s' : Scanner) (acc : List Item) (it : Item)
    (h : scanner_next s = NextRes.item it s') :
    scan_loop (n + 1) s acc = scan_loop n s' (it :: acc) := by
  simp [scan_loop, h]

/-- Unfolding lemma: the scan loop finishes when next yields nothing. -/
lemma scan_loop_fin (n : Nat) (s : Scanner) (acc : List Item)
    (h : scanner_next s = NextRes.none) :
    scan_loop (n + 1) s acc = ScanOut.done acc.reverse := by
  simp [scan_loop, h]

/-- C4: the claim says a leading sign is never part of a Number token and
that "-1" lexes as Punct('-') followed by Number("1"); the code's
full_decimal_literal (and each other numeric recognizer) accepts an optional
leading sign and pushes it onto the lexeme, so the scanner emits the single
token Numeric("-1"). -/
theorem C4 :
    runP numeric_literal "-1".toList = some (Token.Numeric "-1", [])
    ∧ scan "-1" = ScanOut.done
        [⟨Token.Numeric "-1", ⟨0, 2⟩⟩, ⟨Token.EoF, ⟨2, 2⟩⟩] := by
  constructor
  · decide
  · decide

/-- The scanner state reached on the input "if (1) /a/" immediately after
emitting Keyword(if), Punct('('), Numeric(1) and Punct(')'). -/
def state_after_if_cond : Scanner :=
  ⟨"if (1) /a/".toList, false, 7, [⟨0, 2⟩, ⟨3, 4⟩, ⟨4, 5⟩, ⟨5, 6⟩], 1, false, false⟩

set_option maxHeartbeats 1000000 in
/-- C1: when the previous emitted token is ')' and the token immediately
before the open paren recorded in last_open_paren_idx is one of the keywords
if, for, while, with, is_regex_start answers regex; and the input
"if (1) /a/" scans to Keyword(if), Punct('('), Numeric(1), Punct(')'), a
RegEx token with body "a" and no flags, then EoF. -/
theorem C1 :
    (∀ (s : Scanner) (k : String),
        last_token s = some (Token.Punct ")") →
        (k = "if" ∨ k = "for" ∨ k = "while" ∨ k = "with") →
        nth_before_last_open_paren s 1 = Except.ok (some (Token.Keyword k)) →
        is_regex_start s = Except.ok true)
    ∧ scan "if (1) /a/" = ScanOut.done
        [⟨Token.Keyword "if", ⟨0, 2⟩⟩, ⟨Token.Punct "(", ⟨3, 4⟩⟩,
         ⟨Token.Numeric "1", ⟨4, 5⟩⟩, ⟨Token.Punct ")", ⟨5, 6⟩⟩,
         ⟨Token.RegEx "a" none, ⟨7, 10⟩⟩, ⟨Token.EoF, ⟨10, 10⟩⟩] := by
  constructor
  · intro s k hlast hk hnth
    unfold is_regex_start
    rw [hlast]
    show check_for_conditional s = Except.ok true
    unfold check_for_conditional
    rw [hnth]
    show Except.ok
        ((Token.Keyword k).matches_keyword "if" || (Token.Keyword k).matches_keyword "for"
          || (Token.Keyword k).matches_keyword "while"
          || (Token.Keyword k).matches_keyword "with") = Except.ok true
    rcases hk with rfl | rfl | rfl | rfl <;> rfl
  · calc
      scan "if (1) /a/" = scan_loop 12 (Scanner.new "if (1) /a/") [] := rfl
      _ = scan_loop 11 ⟨"if (1) /a/".toList, false, 3, [⟨0, 2⟩], 0, false, false⟩
          [⟨Token.Keyword "if", ⟨0, 2⟩⟩] :=
        scan_loop_step 11 _ _ _ _ (by decide)
      _ = scan_loop 10 ⟨"if (1) /a/".toList, false, 4, [⟨0, 2⟩, ⟨3, 4⟩], 1, false, false⟩
          [⟨Token.Punct "(", ⟨3, 4⟩⟩, ⟨Token.Keyword "if", ⟨0, 2⟩⟩] :=
        scan_loop_step 10 _ _ _ _ (by decide)
      _ = scan_loop 9 ⟨"if (1) /a/".toList, false, 5, [⟨0, 2⟩, ⟨3, 4⟩, ⟨4, 5⟩], 1, false, false⟩
          [⟨Token.Numeric "1", ⟨4, 5⟩⟩, ⟨Token.Punct "(", ⟨3, 4⟩⟩,
           ⟨Token.Keyword "if", ⟨0, 2⟩⟩] :=
        scan_loop_step 9 _ _ _ _ (by decide)
      _ = scan_loop 8 ⟨"if (1) /a/".toList, false, 7,
            [⟨0, 2⟩, ⟨3, 4⟩, ⟨4, 5⟩, ⟨5, 6⟩], 1, false, false⟩
          [⟨Token.Punct ")", ⟨5, 6⟩⟩, ⟨Token.Numeric "1", ⟨4, 5⟩⟩,
           ⟨Token.Punct "(", ⟨3, 4⟩⟩, ⟨Token.Keyword "if", ⟨0, 2⟩⟩] :=
        scan_loop_step 8 _ _ _ _ (by decide)
      _ = scan_loop 7 ⟨"if (1) /a/".toList, false, 10,
            [⟨0, 2⟩, ⟨3, 4⟩, ⟨4, 5⟩, ⟨5, 6⟩, ⟨7, 10⟩], 1, false, false⟩
          [⟨Token.RegEx "a" none, ⟨7, 10⟩⟩, ⟨Token.Punct ")", ⟨5, 6⟩⟩,
           ⟨Token.Numeric "1", ⟨4, 5⟩⟩, ⟨Token.Punct "(", ⟨3, 4⟩⟩,
           ⟨Token.Keyword "if", ⟨0, 2⟩⟩] :=
        scan_loop_step 7 _ _ _ _ (by decide)
      _ = scan_loop 6 ⟨"if (1) /a/".toList, true, 10,
            [⟨0, 2⟩, ⟨3, 4⟩, ⟨4, 5⟩, ⟨5, 6⟩, ⟨7, 10⟩, ⟨10, 10⟩], 1, false, false⟩
          [⟨Token.EoF, ⟨10, 10⟩⟩, ⟨Token.RegEx "a" none, ⟨7, 10⟩⟩,
           ⟨Token.Punct ")", ⟨5, 6⟩⟩, ⟨Token.Numeric "1", ⟨4, 5⟩⟩,
           ⟨Token.Punct "(", ⟨3, 4⟩⟩, ⟨Token.Keyword "if", ⟨0, 2⟩⟩] :=
        scan_loop_step 6 _ _ _ _ (by decide)
      _ = ScanOut.done
          [⟨Token.Keyword "if", ⟨0, 2⟩⟩, ⟨Token.Punct "(", ⟨3, 4⟩⟩,
           ⟨Token.Numeric "1", ⟨4, 5⟩⟩, ⟨Token.Punct ")", ⟨5, 6⟩⟩,
           ⟨Token.RegEx "a" none, ⟨7, 10⟩⟩, ⟨Token.EoF, ⟨10, 10⟩⟩] := by
        rw [scan_loop_fin 5 _ _ (next_of_eof _ rfl)]
        decide

/-- C1 witness: the general branch of C1 applied at the concrete state the
scanner reaches on "if (1) /a/" just before the slash. -/
theorem C1_witness :
    last_token state_after_if_cond = some (Token.Punct ")")
    ∧ nth_before_last_open_paren state_after_if_cond 1
        = Except.ok (some (Token.Keyword "if"))
    ∧ is_regex_start state_after_if_cond = Except.ok true :=
  ⟨by decide, by rfl,
   C1.1 state_after_if_cond "if" (by decide) (Or.inl rfl) (by rfl)⟩

/-- C2: the claim says that with an empty emitted-token history the
regex/division decision is regex; in the code is_regex_start returns false
(division) when last_token is none, so on the input "/a/" the scanner emits
Punct('/') at offset 0 (and then Ident("a/")), never a RegEx token. -/
theorem C2 :
    is_regex_start (Scanner.new "/a/") = Except.ok false
    ∧ scan "/a/" = ScanOut.done
        [⟨Token.Punct "/", ⟨0, 1⟩⟩, ⟨Token.Ident "a/", ⟨1, 3⟩⟩,
         ⟨Token.EoF, ⟨3, 3⟩⟩] := by
  constructor
  · rfl
  · decide

/-- The scanner state reached on the input consisting of open brace, close
brace, slash, backslash, d, slash, g, semicolon, immediately after emitting
the two brace punctuators. -/
def state_after_block : Scanner :=
  ⟨"\x7b\x7d/\\d/g;".toList, false, 2, [⟨0, 1⟩, ⟨1, 2⟩], 0, false, false⟩

/-- C3: the claim says a '/' after a block-closing close brace begins a
regular expression; in the code the second branch of is_regex_start returns
false for any close brace (the later check_for_func branch is dead code), so
the scanner emits Punct('/') at offset 2 on that input and then panics on
the unrecognizable backslash. -/
theorem C3 :
    is_regex_start state_after_block = Except.ok false
    ∧ scan "\x7b\x7d/\\d/g;" = ScanOut.panicked
        [⟨Token.Punct "\x7b", ⟨0, 1⟩⟩, ⟨Token.Punct "\x7d", ⟨1, 2⟩⟩,
         ⟨Token.Punct "/", ⟨2, 3⟩⟩] := by
  constructor
  · rfl
  · decide

/-- C5: the claim says the boolean recognizer only matches when the next
character is not an identifier-part character, so "trueish" is the single
token Ident("trueish"); the code's boolean_literal has no such guard and
token dispatch tries it before ident, so the scanner emits Boolean(true)
followed by Ident("ish"). -/
theorem C5 :
    runP boolean_literal "trueish".toList = some (Token.Boolean true, "ish".toList)
    ∧ scan "trueish" = ScanOut.done
        [⟨Token.Boolean true, ⟨0, 4⟩⟩, ⟨Token.Ident "ish", ⟨4, 7⟩⟩,
         ⟨Token.EoF, ⟨7, 7⟩⟩] := by
  constructor
  · decide
  · decide

/-- C6: the claim says an identifier is an identifier-start character
followed only by identifier-part characters, so "a+b" is three tokens; the
code's ident accepts as continuation any character outside a small excluded
list that does not contain '+', so the scanner emits the single token
Ident("a+b"). -/
theorem C6 :
    runP ident "a+b".toList = some (Token.Ident "a+b", [])
    ∧ scan "a+b" = ScanOut.done
        [⟨Token.Ident "a+b", ⟨0, 3⟩⟩, ⟨Token.EoF, ⟨3, 3⟩⟩] := by
  constructor
  · decide
  · decide

/-- The single-quoted source literal whose body is the four characters a,
backslash, backslash, b. -/
def c7_src : List Char := ['\'', 'a', '\\', '\\', 'b', '\'']

/-- C7: the claim says a string token's payload preserves the body exactly
as written, in particular both characters of a backslash-backslash escape;
the code's escaped('o') helper drops the leading backslash and the map in
single_quoted_content re-expands it only for an escaped quote, so the body
a-backslash-backslash-b (four characters) yields the three-character payload
a-backslash-b: one backslash of the pair is lost. -/
theorem C7 :
    runP single_quote c7_src = some (String.mk ['a', '\\', 'b'], [])
    ∧ scan (String.mk c7_src) = ScanOut.done
        [⟨Token.String (String.mk ['a', '\\', 'b']), ⟨0, 6⟩⟩,
         ⟨Token.EoF, ⟨6, 6⟩⟩]
    ∧ (String.mk ['a', '\\', 'b']).toList.count '\\' = 1 := by
  refine ⟨by decide, by decide, by decide⟩

/-- C8: after next yields EoF every subsequent call yields nothing — if the
eof flag is set, next returns none; whenever next yields an EoF item the
successor state has the flag set; and any scan emits at most one EoF item. -/
theorem C8 (s : Scanner) :
    (s.eof = true → scanner_next s = NextRes.none)
    ∧ (∀ (it : Item) (s' : Scanner), scanner_next s = NextRes.item it s' →
        it.token = Token.EoF → s'.eof = true)
    ∧ (∀ fuel : Nat, eof_count ((scan_loop fuel s []).items) ≤ 1) :=
  ⟨fun h => next_of_eof s h,
   fun it s' h ht => next_item_eof s it s' h ht,
   fun fuel => scan_loop_eof_count fuel s⟩

/-- The scanner state after the empty input has been scanned: the EoF item
has been emitted and the eof flag is set. -/
def state_after_empty : Scanner := ⟨[], true, 0, [⟨0, 0⟩], 0, false, false⟩

/-- C8 witness: on the empty input, next emits EoF and moves to a state with
the eof flag set, and next of that state yields nothing. -/
theorem C8_witness :
    scanner_next state_after_empty = NextRes.none ∧ state_after_empty.eof = true :=
  ⟨(C8 state_after_empty).1 rfl,
   (C8 (Scanner.new "")).2.1 ⟨Token.EoF, ⟨0, 0⟩⟩ state_after_empty (by decide) rfl⟩

/-- C9 counterexample: the claim says a recognition failure away from end of
input is surfaced as an error value in the yielded item and never through an
out-of-band mechanism such as panicking; on the input "@" (which no
recognizer accepts) next panics. -/
theorem C9_counterexample : scanner_next (Scanner.new "@") = NextRes.panic := by
  decide

/-- C9 (amended): when no recognizer accepts the text at the cursor, the
scanner is not at its eof state and not in template mode, next panics — the
failure is out-of-band, no error-carrying item is yielded (the crate's error
type has no UnrecognizedInput variant), and nothing further is yielded
because the call diverges. -/
theorem C9 (s : Scanner) (h1 : s.eof = false)
    (h2 : (s.in_template && !s.in_replacement) = false)
    (h3 : runP token (s.stream.drop s.cursor) = Option.none) :
    scanner_next s = NextRes.panic := by
  simp [scanner_next, h1, h2, h3]

/-- C9 witness: the amended statement applied at the concrete input "@". -/
theorem C9_witness :
    (Scanner.new "@").eof = false
    ∧ runP token ((Scanner.new "@").stream.drop (Scanner.new "@").cursor) = Option.none
    ∧ scanner_next (Scanner.new "@") = NextRes.panic :=
  ⟨rfl, by decide, C9 (Scanner.new "@") rfl rfl (by decide)⟩

/-- The scanner state reached on the input ") /a/" immediately after
emitting Punct(')'): the span history has one entry and
last_open_paren_idx is still its initial zero. -/
def state_after_close_paren : Scanner :=
  ⟨") /a/".toList, false, 2, [⟨0, 1⟩], 0, false, false⟩

/-- C10: on the input ") /a/" a ')' is emitted before any '(' ever was;
at the following '/' the scanner calls nth_before_last_open_paren 1 with
last_open_paren_idx zero, whose guard only compares against the span count,
so the usize subtraction underflows and the call panics — reachable from the
public iterator interface. -/
theorem C10 :
    scanner_next (Scanner.new ") /a/")
      = NextRes.item ⟨Token.Punct ")", ⟨0, 1⟩⟩ state_after_close_paren
    ∧ nth_before_last_open_paren state_after_close_paren 1 = Except.error ()
    ∧ is_regex_start state_after_close_paren = Except.error ()
    ∧ scan ") /a/" = ScanOut.panicked [⟨Token.Punct ")", ⟨0, 1⟩⟩] := by
  refine ⟨by decide, by rfl, by rfl, by decide⟩

end JsParse
